import Mathlib

/-!
Verification of the FYI Guard verdict engine
(`backend/src/services` guard service: `GuardService` and its six checks,
plus the HTTP adapters in `guardMiddleware.ts` and the guard router).

The TypeScript source is shallowly embedded: every check becomes a pure
Lean function over an explicit directory-store snapshot; the JavaScript
regular expressions used by the override and content guards are compiled
by hand into executable character-list matchers (all the patterns use
`/i`, so matching is performed on a lower-cased character list); the
`new Date()` / `Date.now()` clock readings become explicit parameters.
-/

namespace Guard

/-! ## Character-level helpers (JS regex semantics) -/

/-- Characters matched by the JS regex class `\s`. -/
def isJsWs (c : Char) : Bool :=
  c == ' ' || c == '\t' || c == '\n' || c == '\r' ||
  c == Char.ofNat 11 || c == Char.ofNat 12 ||
  c.toNat == 0xa0 || c.toNat == 0x1680 ||
  (0x2000 ≤ c.toNat && c.toNat ≤ 0x200a) ||
  c.toNat == 0x2028 || c.toNat == 0x2029 || c.toNat == 0x202f ||
  c.toNat == 0x205f || c.toNat == 0x3000 || c.toNat == 0xfeff

/-- Characters matched by the JS regex class `\w` (ASCII word characters). -/
def isWordChar (c : Char) : Bool :=
  c.isAlphanum || c == '_'

/-- Lower-case a string character-wise (model of `String.prototype.toLowerCase`
restricted to ASCII, which is all the guard patterns use). -/
def lowerStr (s : String) : String :=
  String.mk (s.data.map Char.toLower)

/-- All positions of a character list, each paired with the character
immediately before it (`none` at the start of the string).  Used to test a
regex "matches somewhere", with enough context for `\b`. -/
def positions (prev : Option Char) (cs : List Char) : List (Option Char × List Char) :=
  (prev, cs) ::
    match cs with
    | [] => []
    | c :: rest => positions (some c) rest

/-- Consume a literal, returning the rest of the input. -/
def pLit (p : String) (cs : List Char) : Option (List Char) :=
  if p.data.isPrefixOf cs then some (cs.drop p.data.length) else none

/-- `\s*` — the following combinator in every pattern below starts with a
non-whitespace character, so greedy maximal consumption is exact. -/
def pWs0 (cs : List Char) : Option (List Char) :=
  some (cs.dropWhile isJsWs)

/-- `\s+` (again followed by a non-whitespace literal in every use). -/
def pWs1 (cs : List Char) : Option (List Char) :=
  match cs with
  | c :: rest => if isJsWs c then some (rest.dropWhile isJsWs) else none
  | [] => none

/-- A single `\s` character. -/
def pOneWs (cs : List Char) : Option (List Char) :=
  match cs with
  | c :: rest => if isJsWs c then some rest else none
  | [] => none

/-- `\d+` (followed by a non-digit in every use). -/
def pDigits1 (cs : List Char) : Option (List Char) :=
  match cs with
  | c :: rest => if c.isDigit then some (rest.dropWhile Char.isDigit) else none
  | [] => none

/-- A single-quote character. -/
def pSQuote (cs : List Char) : Option (List Char) :=
  match cs with
  | c :: rest => if c == Char.ofNat 39 then some rest else none
  | [] => none

/-- `['"]?` — optional quote; the continuation starts with a letter, so
greedy consumption is exact. -/
def pOptQuote (cs : List Char) : Option (List Char) :=
  match cs with
  | c :: rest => if c == Char.ofNat 39 || c == Char.ofNat 34 then some rest else some cs
  | [] => some cs

/-- `[=:]`. -/
def pEqOrColon (cs : List Char) : Option (List Char) :=
  match cs with
  | c :: rest => if c == '=' || c == ':' then some rest else none
  | [] => none

/-- `[^>]*` (followed by `>`, so greedy consumption is exact). -/
def pNotGtStar (cs : List Char) : Option (List Char) :=
  some (cs.dropWhile (fun c => c != '>'))

/-- `\b` on the left of a word character: previous char absent or non-word. -/
def bdryBefore : Option Char → Bool
  | none => true
  | some c => !(isWordChar c)

/-- `\b` on the right of a word character: next char absent or non-word. -/
def bdryAfter : List Char → Bool
  | [] => true
  | c :: _ => !(isWordChar c)

/-- Does `pat` succeed somewhere in a lower-cased string? -/
def matchSomewhere (pat : List Char → Bool) (s : String) : Bool :=
  (positions none (s.data.map Char.toLower)).any fun pt => pat pt.2

/-! ## The `OVERRIDE_PATTERNS` regexes -/

/-- `/__admin__/i` -/
def adminKeyTest (s : String) : Bool :=
  matchSomewhere (fun t => (pLit "__admin__" t).isSome) s

/-- `/bypass\s*=\s*true/i` -/
def bypassFlagTest (s : String) : Bool :=
  matchSomewhere (fun t =>
    (pLit "bypass" t >>= pWs0 >>= pLit "=" >>= pWs0 >>= pLit "true").isSome) s

/-- `/role\s*[=:]\s*['"]?superadmin/i` -/
def roleOverrideTest (s : String) : Bool :=
  matchSomewhere (fun t =>
    (pLit "role" t >>= pWs0 >>= pEqOrColon >>= pWs0 >>= pOptQuote >>=
      pLit "superadmin").isSome) s

/-- `/grant_all/i` -/
def grantAllTest (s : String) : Bool :=
  matchSomewhere (fun t => (pLit "grant_all" t).isSome) s

/-- `/force_auth\s*=\s*true/i` -/
def forceAuthTest (s : String) : Bool :=
  matchSomewhere (fun t =>
    (pLit "force_auth" t >>= pWs0 >>= pLit "=" >>= pWs0 >>= pLit "true").isSome) s

/-- `/\belevate_privilege|admin_token|master_key\b/i` — the boundaries bind
to the first and last alternative only. -/
def privEscTest (s : String) : Bool :=
  (positions none (s.data.map Char.toLower)).any fun pt =>
    (bdryBefore pt.1 && (pLit "elevate_privilege" pt.2).isSome) ||
    (pLit "admin_token" pt.2).isSome ||
    (match pLit "master_key" pt.2 with
     | some r => bdryAfter r
     | none => false)

/-- The `OVERRIDE_PATTERNS` table, in source order. -/
def OVERRIDE_PATTERNS : List (String × (String → Bool)) :=
  [("ADMIN_KEY", adminKeyTest),
   ("BYPASS_FLAG", bypassFlagTest),
   ("ROLE_OVERRIDE", roleOverrideTest),
   ("GRANT_ALL", grantAllTest),
   ("FORCE_AUTH", forceAuthTest),
   ("PRIVILEGE_ESCALATION", privEscTest)]

/-! ## The `MALICIOUS_PATTERNS` regexes -/

/-- `/('\s*(OR|AND)\s+\d+\s*=\s*\d+|;\s*(DROP|DELETE|UPDATE|INSERT|ALTER)\s|UNION\s+SELECT|--\s*$)/i` -/
def sqlInjectionTest (s : String) : Bool :=
  matchSomewhere (fun t =>
    (pSQuote t >>= pWs0 >>= pLit "or" >>= pWs1 >>= pDigits1 >>= pWs0 >>=
      pLit "=" >>= pWs0 >>= pDigits1).isSome ||
    (pSQuote t >>= pWs0 >>= pLit "and" >>= pWs1 >>= pDigits1 >>= pWs0 >>=
      pLit "=" >>= pWs0 >>= pDigits1).isSome ||
    (pLit ";" t >>= pWs0 >>= pLit "drop" >>= pOneWs).isSome ||
    (pLit ";" t >>= pWs0 >>= pLit "delete" >>= pOneWs).isSome ||
    (pLit ";" t >>= pWs0 >>= pLit "update" >>= pOneWs).isSome ||
    (pLit ";" t >>= pWs0 >>= pLit "insert" >>= pOneWs).isSome ||
    (pLit ";" t >>= pWs0 >>= pLit "alter" >>= pOneWs).isSome ||
    (pLit "union" t >>= pWs1 >>= pLit "select").isSome ||
    (match pLit "--" t with
     | some r => (r.dropWhile isJsWs).isEmpty
     | none => false)) s

/-- `/(<script[^>]*>|javascript\s*:|on(load|error|click|mouseover)\s*=)/i` -/
def xssInjectionTest (s : String) : Bool :=
  matchSomewhere (fun t =>
    (pLit "<script" t >>= pNotGtStar >>= pLit ">").isSome ||
    (pLit "javascript" t >>= pWs0 >>= pLit ":").isSome ||
    (pLit "onload" t >>= pWs0 >>= pLit "=").isSome ||
    (pLit "onerror" t >>= pWs0 >>= pLit "=").isSome ||
    (pLit "onclick" t >>= pWs0 >>= pLit "=").isSome ||
    (pLit "onmouseover" t >>= pWs0 >>= pLit "=").isSome) s

/-- `/(ignore\s+(previous|prior|all)\s+instructions|disregard\s+(all\s+)?instructions|you\s+are\s+now|new\s+system\s+prompt|forget\s+(everything|all))/i` -/
def promptInjectionTest (s : String) : Bool :=
  matchSomewhere (fun t =>
    (pLit "ignore" t >>= pWs1 >>= pLit "previous" >>= pWs1 >>= pLit "instructions").isSome ||
    (pLit "ignore" t >>= pWs1 >>= pLit "prior" >>= pWs1 >>= pLit "instructions").isSome ||
    (pLit "ignore" t >>= pWs1 >>= pLit "all" >>= pWs1 >>= pLit "instructions").isSome ||
    (pLit "disregard" t >>= pWs1 >>= pLit "all" >>= pWs1 >>= pLit "instructions").isSome ||
    (pLit "disregard" t >>= pWs1 >>= pLit "instructions").isSome ||
    (pLit "you" t >>= pWs1 >>= pLit "are" >>= pWs1 >>= pLit "now").isSome ||
    (pLit "new" t >>= pWs1 >>= pLit "system" >>= pWs1 >>= pLit "prompt").isSome ||
    (pLit "forget" t >>= pWs1 >>= pLit "everything").isSome ||
    (pLit "forget" t >>= pWs1 >>= pLit "all").isSome) s

/-- `/\b(superadmin|ADMIN_OVERRIDE|system\s*admin|root\s*access)\b/i` -/
def roleImpersonationTest (s : String) : Bool :=
  (positions none (s.data.map Char.toLower)).any fun pt =>
    bdryBefore pt.1 &&
    ((match pLit "superadmin" pt.2 with
      | some r => bdryAfter r
      | none => false) ||
     (match pLit "admin_override" pt.2 with
      | some r => bdryAfter r
      | none => false) ||
     (match pLit "system" pt.2 >>= pWs0 >>= pLit "admin" with
      | some r => bdryAfter r
      | none => false) ||
     (match pLit "root" pt.2 >>= pWs0 >>= pLit "access" with
      | some r => bdryAfter r
      | none => false))

/-- The `MALICIOUS_PATTERNS` table, in source order. -/
def MALICIOUS_PATTERNS : List (String × (String → Bool)) :=
  [("SQL_INJECTION", sqlInjectionTest),
   ("XSS_INJECTION", xssInjectionTest),
   ("PROMPT_INJECTION", promptInjectionTest),
   ("ROLE_IMPERSONATION", roleImpersonationTest)]

/-! ## JSON values and `JSON.stringify` (for `payload` scanning/logging) -/

/-- A JSON value; numeric payload values are modelled as integers. -/
inductive Json where
  | null : Json
  | bool (b : Bool) : Json
  | num (n : Int) : Json
  | str (s : String) : Json
  | arr (xs : List Json) : Json
  | obj (fields : List (String × Json)) : Json

/-- A hexadecimal digit, as produced by `JSON.stringify` control escapes. -/
def hexDigit (n : Nat) : Char :=
  if n < 10 then Char.ofNat (48 + n) else Char.ofNat (87 + n)

/-- One character of a JSON string literal, as escaped by `JSON.stringify`. -/
def escapeJsonChar (c : Char) : String :=
  if c == Char.ofNat 34 then "\\\""
  else if c == '\\' then "\\\\"
  else if c == Char.ofNat 8 then "\\b"
  else if c == Char.ofNat 12 then "\\f"
  else if c == '\n' then "\\n"
  else if c == '\r' then "\\r"
  else if c == '\t' then "\\t"
  else if c.toNat < 0x20 then
    "\\u00" ++ String.mk [hexDigit (c.toNat / 16), hexDigit (c.toNat % 16)]
  else String.mk [c]

/-- A JSON string literal, as produced by `JSON.stringify`. -/
def escapeJsonString (s : String) : String :=
  "\"" ++ String.join (s.data.map escapeJsonChar) ++ "\""

mutual

/-- `JSON.stringify` (no spacing, insertion order preserved). -/
def Json.stringify : Json → String
  | .null => "null"
  | .bool b => if b then "true" else "false"
  | .num n => toString n
  | .str s => escapeJsonString s
  | .arr xs => "[" ++ String.intercalate "," (stringifyList xs) ++ "]"
  | .obj fs => "\x7b" ++ String.intercalate "," (stringifyFields fs) ++ "\x7d"

/-- Stringify the elements of a JSON array. -/
def stringifyList : List Json → List String
  | [] => []
  | x :: xs => Json.stringify x :: stringifyList xs

/-- Stringify the fields of a JSON object. -/
def stringifyFields : List (String × Json) → List String
  | [] => []
  | (k, v) :: fs => (escapeJsonString k ++ ":" ++ Json.stringify v) :: stringifyFields fs

end

/-! ## Verdict and context types -/

/-- `Verdict` union type. -/
inductive Verdict where
  | ALLOW | BLOCK | ESCALATE
deriving DecidableEq, Repr

/-- `RiskLevel` union type. -/
inductive RiskLevel where
  | low | medium | high | critical
deriving DecidableEq, Repr

/-- `ActionTaken` union type. -/
inductive ActionTaken where
  | logged | blocked | flagged_for_review | session_terminated
deriving DecidableEq, Repr

/-- `ReasonCode` union type. -/
inductive ReasonCode where
  | OK | SEAT_LIMIT_REACHED | DOMAIN_MISMATCH | DOMAIN_UNKNOWN
  | INSUFFICIENT_PERMISSIONS | MALICIOUS_INPUT_DETECTED | SESSION_EXPIRED
  | SESSION_INVALID | SUSPICIOUS_MULTI_LOGIN | OVERRIDE_ATTEMPT
  | RATE_LIMIT_EXCEEDED | ACCOUNT_SUSPENDED | FREE_FOREVER_CONFIRMED
deriving DecidableEq, Repr

/-- `UserRole` union type. -/
inductive UserRole where
  | member | org_admin | superadmin
deriving DecidableEq, Repr

/-- The string form of a role, as interpolated into details and logs. -/
def roleStr : UserRole → String
  | .member => "member"
  | .org_admin => "org_admin"
  | .superadmin => "superadmin"

/-- `GuardAction` union type. -/
inductive GuardAction where
  | view_own_profile | view_org_members | change_org_settings
  | change_domain_plan | add_remove_domains | promote_to_org_admin
  | delete_any_user | grant_free_forever
deriving DecidableEq, Repr

/-- The string form of an action, as interpolated into details and logs. -/
def actionStr : GuardAction → String
  | .view_own_profile => "view_own_profile"
  | .view_org_members => "view_org_members"
  | .change_org_settings => "change_org_settings"
  | .change_domain_plan => "change_domain_plan"
  | .add_remove_domains => "add_remove_domains"
  | .promote_to_org_admin => "promote_to_org_admin"
  | .delete_any_user => "delete_any_user"
  | .grant_free_forever => "grant_free_forever"

/-- The `user` snapshot nested in a `GuardVerdict`. -/
structure VerdictUser where
  email : String
  domain : String
  role : String
deriving DecidableEq, Repr

/-- `GuardVerdict`.  The ISO timestamp written by `new Date().toISOString()`
is modelled as the natural number handed to the verdict constructor. -/
structure GuardVerdict where
  verdict : Verdict
  reason : ReasonCode
  detail : String
  risk_level : RiskLevel
  action_taken : ActionTaken
  timestamp : Nat
  user : VerdictUser
deriving DecidableEq, Repr

/-- `GuardContext`. -/
structure GuardContext where
  userEmail : String
  userRole : UserRole
  orgId : Option String := none
  action : Option GuardAction := none
  payload : Option (List (String × Json)) := none
  sessionToken : Option String := none
  sessionIp : Option String := none
  textInputs : Option (List String) := none
  headers : Option (List (String × String)) := none

/-! ## The directory store (Prisma reads) -/

/-- One `OrgDomain` row: a registered domain and its per-domain plan. -/
structure OrgDomain where
  domain : String
  plan : String
deriving DecidableEq, Repr

/-- One `Organization` row, with its domains and member count included
the way `GuardService` queries them. -/
structure Organization where
  plan : Option String
  restrictSameDomain : Bool
  domains : List OrgDomain
  memberCount : Nat
deriving DecidableEq, Repr

/-- One `Session` row; `createdAt` is the epoch-millisecond reading of the
stored timestamp, `ttlSeconds` is nullable. -/
structure Session where
  userEmail : String
  ipAddress : Option String
  createdAt : Int
  ttlSeconds : Option Int
deriving DecidableEq, Repr

/-- A snapshot of the directory store: organizations keyed by id and
sessions keyed by token. -/
structure Store where
  orgs : List (String × Organization)
  sessions : List (String × Session)

/-- `prisma.organization.findUnique({where: {id}})`. -/
def Store.findOrg (st : Store) (id : String) : Option Organization :=
  (st.orgs.find? (fun p => p.1 == id)).map Prod.snd

/-- `prisma.session.findUnique({where: {token}})`. -/
def Store.findSession (st : Store) (tok : String) : Option Session :=
  (st.sessions.find? (fun p => p.1 == tok)).map Prod.snd

/-! ## Plan seat caps and the role matrix -/

/-- A seat cap: a finite number or `Infinity`. -/
inductive SeatCap where
  | finite (n : Nat) : SeatCap
  | infinite : SeatCap
deriving DecidableEq, Repr

/-- `PLAN_SEAT_LIMITS` record lookup (`none` = key absent). -/
def PLAN_SEAT_LIMITS (plan : String) : Option SeatCap :=
  if plan == "free_trial" then some (.finite 5)
  else if plan == "pro" then some (.finite 25)
  else if plan == "enterprise" then some .infinite
  else if plan == "free_forever" then some .infinite
  else none

/-- `currentMembers >= seatCap` with JS `Infinity` semantics. -/
def capReached (currentMembers : Nat) : SeatCap → Bool
  | .finite c => decide (c ≤ currentMembers)
  | .infinite => false

/-- Template rendering of a seat cap (`Infinity` prints as such). -/
def seatCapStr : SeatCap → String
  | .finite n => toString n
  | .infinite => "Infinity"

/-- `ACTION_MIN_ROLE` matrix (total over the action union type, so the
source's unreachable unknown-action fallthrough has no counterpart). -/
def ACTION_MIN_ROLE : GuardAction → UserRole
  | .view_own_profile => .member
  | .view_org_members => .org_admin
  | .change_org_settings => .org_admin
  | .change_domain_plan => .superadmin
  | .add_remove_domains => .superadmin
  | .promote_to_org_admin => .superadmin
  | .delete_any_user => .superadmin
  | .grant_free_forever => .superadmin

/-- `ROLE_HIERARCHY`. -/
def ROLE_HIERARCHY : UserRole → Nat
  | .member => 0
  | .org_admin => 1
  | .superadmin => 2

/-- `hasRole`: hierarchy comparison. -/
def hasRole (userRole requiredRole : UserRole) : Bool :=
  decide (ROLE_HIERARCHY requiredRole ≤ ROLE_HIERARCHY userRole)

/-! ## The guard service helpers -/

/-- `email.split('@')` over the character list. -/
def splitAtSign : List Char → List (List Char)
  | [] => [[]]
  | c :: rest =>
    if c = '@' then [] :: splitAtSign rest
    else
      match splitAtSign rest with
      | [] => [[c]]
      | h :: t => (c :: h) :: t

/-- `extractDomain`: `email.split('@')[1]?.toLowerCase() ?? ''`. -/
def extractDomain (email : String) : String :=
  match splitAtSign email.data with
  | _ :: d :: _ => String.mk (d.map Char.toLower)
  | _ => ""

/-- The verdict-builder helper. -/
def mkVerdict (v : Verdict) (reason : ReasonCode) (detail : String)
    (risk : RiskLevel) (actionTaken : ActionTaken) (ts : Nat)
    (email domain : String) (role : UserRole) : GuardVerdict :=
  { verdict := v, reason := reason, detail := detail, risk_level := risk,
    action_taken := actionTaken, timestamp := ts,
    user := { email := email, domain := domain, role := roleStr role } }

/-- `collectAllStrings`: text inputs, then the JSON serialization of the
payload, then `"key=value"` header pairs. -/
def collectAllStrings (ctx : GuardContext) : List String :=
  (ctx.textInputs.getD []) ++
  (match ctx.payload with
   | some p => [Json.stringify (Json.obj p)]
   | none => []) ++
  (match ctx.headers with
   | some hs => hs.map (fun kv => kv.1 ++ "=" ++ kv.2)
   | none => [])

/-- The name of the first rule (inner loop) matching the first string
(outer loop), mirroring the nested `for` loops of the source. -/
def firstRuleMatch (pats : List (String × (String → Bool)))
    (strs : List String) : Option String :=
  strs.findSome? (fun s => pats.findSome? (fun p => if p.2 s then some p.1 else none))

/-! ## The six checks -/

/-- Check 6 in the source's numbering, run first: `checkOverrideAttempt`. -/
def checkOverrideAttempt (ts : Nat) (ctx : GuardContext) : Option GuardVerdict :=
  let domain := extractDomain ctx.userEmail
  match firstRuleMatch OVERRIDE_PATTERNS (collectAllStrings ctx) with
  | some name =>
    some (mkVerdict .BLOCK .OVERRIDE_ATTEMPT
      ("Override attempt detected: " ++ name ++ " in input")
      .critical .session_terminated ts ctx.userEmail domain ctx.userRole)
  | none => none

/-- `checkMaliciousInput`. -/
def checkMaliciousInput (ts : Nat) (ctx : GuardContext) : Option GuardVerdict :=
  let domain := extractDomain ctx.userEmail
  match firstRuleMatch MALICIOUS_PATTERNS (ctx.textInputs.getD []) with
  | some name =>
    some (mkVerdict .BLOCK .MALICIOUS_INPUT_DETECTED
      ("Malicious input detected: " ++ name)
      .high .blocked ts ctx.userEmail domain ctx.userRole)
  | none => none

/-- `checkPermission`. -/
def checkPermission (ts : Nat) (ctx : GuardContext) : Option GuardVerdict :=
  match ctx.action with
  | none => none
  | some act =>
    let domain := extractDomain ctx.userEmail
    let required := ACTION_MIN_ROLE act
    if hasRole ctx.userRole required then none
    else
      some (mkVerdict .BLOCK .INSUFFICIENT_PERMISSIONS
        ("Action \"" ++ actionStr act ++ "\" requires role \"" ++
          roleStr required ++ "\", user has \"" ++ roleStr ctx.userRole ++ "\"")
        .medium .blocked ts ctx.userEmail domain ctx.userRole)

/-- `checkDomainAccess`. -/
def checkDomainAccess (st : Store) (ts : Nat) (ctx : GuardContext) :
    Option GuardVerdict :=
  match ctx.orgId with
  | none => none
  | some oid =>
    let domain := extractDomain ctx.userEmail
    match st.findOrg oid with
    | none => none
    | some org =>
      match org.domains.find? (fun d => lowerStr d.domain == domain) with
      | none =>
        if org.domains.length > 0 then
          if org.restrictSameDomain then
            some (mkVerdict .BLOCK .DOMAIN_MISMATCH
              ("Email domain \"" ++ domain ++ "\" does not match org registered domains")
              .medium .blocked ts ctx.userEmail domain ctx.userRole)
          else
            some (mkVerdict .ESCALATE .DOMAIN_UNKNOWN
              ("Domain \"" ++ domain ++ "\" is not registered in the system")
              .medium .flagged_for_review ts ctx.userEmail domain ctx.userRole)
        else none
      | some dr =>
        if dr.plan == "free_forever" then
          some (mkVerdict .ALLOW .FREE_FOREVER_CONFIRMED
            ("Domain \"" ++ domain ++ "\" has admin-granted free_forever access")
            .low .logged ts ctx.userEmail domain ctx.userRole)
        else none

/-- `checkSeatLimit`. -/
def checkSeatLimit (st : Store) (ts : Nat) (ctx : GuardContext) :
    Option GuardVerdict :=
  match ctx.orgId with
  | none => none
  | some oid =>
    let domain := extractDomain ctx.userEmail
    match st.findOrg oid with
    | none => none
    | some org =>
      if (org.domains.find? (fun d => lowerStr d.domain == domain)).map
          OrgDomain.plan == some "free_forever" then
        none
      else
        let plan := org.plan.getD "free_trial"
        let seatCap := (PLAN_SEAT_LIMITS plan).getD (.finite 5)
        let currentMembers := org.memberCount
        if capReached currentMembers seatCap then
          some (mkVerdict .BLOCK .SEAT_LIMIT_REACHED
            ("Org has " ++ toString currentMembers ++ "/" ++ seatCapStr seatCap ++
              " seats (plan: " ++ plan ++ "). No seats available.")
            .low .blocked ts ctx.userEmail domain ctx.userRole)
        else none

/-- `split('.')[0]`, the "IP class" of an IPv4 address. -/
def ipClass (s : String) : String :=
  String.mk (s.data.takeWhile (fun c => c != '.'))

/-- JS truthiness of a nullable string (null and the empty string are falsy). -/
def truthyStr : Option String → Bool
  | none => false
  | some s => !(s.isEmpty)

/-- The IP-class comparison step of `checkSessionIntegrity` (both IPs must
be truthy, i.e. present and non-empty). -/
def ipClassStep (ts : Nat) (ctx : GuardContext) (session : Session) :
    Option GuardVerdict :=
  let domain := extractDomain ctx.userEmail
  if truthyStr ctx.sessionIp && truthyStr session.ipAddress then
    let sessionClass := ipClass (session.ipAddress.getD "")
    let currentClass := ipClass (ctx.sessionIp.getD "")
    if sessionClass != currentClass then
      some (mkVerdict .ESCALATE .SESSION_INVALID
        ("Session created from IP class " ++ sessionClass ++
          ".x, current request from " ++ currentClass ++ ".x")
        .high .flagged_for_review ts ctx.userEmail domain ctx.userRole)
    else none
  else none

/-- The distinct-recent-IPs step of `checkSessionIntegrity`: sessions of
this email created in the last 10 minutes, distinct truthy IPs, 3 or more
escalates. -/
def multiLoginStep (st : Store) (now : Int) (ts : Nat) (ctx : GuardContext) :
    Option GuardVerdict :=
  let domain := extractDomain ctx.userEmail
  let tenMinAgo := now - 10 * 60 * 1000
  let recents := st.sessions.filter
    (fun p => p.2.userEmail == ctx.userEmail &&
      decide (tenMinAgo ≤ p.2.createdAt))
  let uniqueIps :=
    (((recents.map (fun p => p.2.ipAddress)).filterMap id).filter
      (fun s => !(s.isEmpty))).dedup
  if uniqueIps.length ≥ 3 then
    some (mkVerdict .ESCALATE .SUSPICIOUS_MULTI_LOGIN
      (toString uniqueIps.length ++ " unique IPs detected for " ++
        ctx.userEmail ++ " in last 10 minutes")
      .high .flagged_for_review ts ctx.userEmail domain ctx.userRole)
  else none

/-- `checkSessionIntegrity`; `now` is the `Date.now()` reading in epoch
milliseconds, and the `createdAt.toISOString()` interpolation in the expiry
detail is rendered from the modelled millisecond timestamp. -/
def checkSessionIntegrity (st : Store) (now : Int) (ts : Nat)
    (ctx : GuardContext) : Option GuardVerdict :=
  match ctx.sessionToken with
  | none => none
  | some tok =>
    let domain := extractDomain ctx.userEmail
    match st.findSession tok with
    | none =>
      some (mkVerdict .BLOCK .SESSION_INVALID
        "Session token does not match any stored session"
        .high .session_terminated ts ctx.userEmail domain ctx.userRole)
    | some session =>
      if session.userEmail != ctx.userEmail then
        some (mkVerdict .BLOCK .SESSION_INVALID
          "Session token does not match claimed user identity"
          .critical .session_terminated ts ctx.userEmail domain ctx.userRole)
      else
        let ttlMs := (session.ttlSeconds.getD 3600) * 1000
        if now - session.createdAt > ttlMs then
          some (mkVerdict .BLOCK .SESSION_EXPIRED
            ("Session created at " ++ toString session.createdAt ++
              " exceeds TTL of " ++
              (match session.ttlSeconds with
               | some n => toString n
               | none => "null") ++ "s")
            .medium .session_terminated ts ctx.userEmail domain ctx.userRole)
        else
          match ipClassStep ts ctx session with
          | some v => some v
          | none => multiLoginStep st now ts ctx

/-! ## The orchestrator -/

/-- `GuardService.evaluate`, verdict component: the fixed check order with
first-non-null-wins short-circuiting, synthesizing `ALLOW/OK` when every
check abstains. -/
def evaluate (st : Store) (now : Int) (ts : Nat) (ctx : GuardContext) :
    GuardVerdict :=
  let domain := extractDomain ctx.userEmail
  match checkOverrideAttempt ts ctx with
  | some v => v
  | none =>
  match checkMaliciousInput ts ctx with
  | some v => v
  | none =>
  match checkPermission ts ctx with
  | some v => v
  | none =>
  match checkDomainAccess st ts ctx with
  | some v => v
  | none =>
  match checkSeatLimit st ts ctx with
  | some v => v
  | none =>
  match checkSessionIntegrity st now ts ctx with
  | some v => v
  | none =>
    mkVerdict .ALLOW .OK "All guard checks passed" .low .logged ts
      ctx.userEmail domain ctx.userRole

/-! ## Audit logging (`logVerdict` and the logged orchestrator) -/

/-- One `guardLog` row, as assembled by `logVerdict`. -/
structure LogEntry where
  verdict : Verdict
  reason : ReasonCode
  detail : String
  riskLevel : RiskLevel
  actionTaken : ActionTaken
  userEmail : String
  userRole : String
  orgId : Option String
  action : Option GuardAction
  ipAddress : Option String
  payload : Option String
deriving DecidableEq, Repr

/-- The row `logVerdict` submits for a verdict and context. -/
def mkLogEntry (v : GuardVerdict) (ctx : GuardContext) : LogEntry :=
  { verdict := v.verdict, reason := v.reason, detail := v.detail,
    riskLevel := v.risk_level, actionTaken := v.action_taken,
    userEmail := ctx.userEmail, userRole := roleStr ctx.userRole,
    orgId := ctx.orgId, action := ctx.action, ipAddress := ctx.sessionIp,
    payload := ctx.payload.map (fun p => Json.stringify (Json.obj p)) }

/-- Outcome of the fire-and-forget log write: the row was written, or the
write failed and the rejection was caught and sent to `console.error`. -/
inductive LogOutcome where
  | written (entry : LogEntry) : LogOutcome
  | consoleError (message : String) (entry : LogEntry) : LogOutcome
deriving DecidableEq, Repr

/-- `logVerdict`: submit the row; a sink failure is caught (`.catch`) and
reported to the console, never re-thrown. -/
def logVerdict (sinkOk : Bool) (v : GuardVerdict) (ctx : GuardContext) :
    LogOutcome :=
  if sinkOk then .written (mkLogEntry v ctx)
  else .consoleError "[FYI Guard] Failed to log verdict:" (mkLogEntry v ctx)

/-- `GuardService.evaluate` with its logging effect: each return site
submits exactly the verdict it returns (the ALLOW synthesis included). -/
def evaluateLogged (st : Store) (sinkOk : Bool) (now : Int) (ts : Nat)
    (ctx : GuardContext) : GuardVerdict × LogOutcome :=
  let domain := extractDomain ctx.userEmail
  match checkOverrideAttempt ts ctx with
  | some v => (v, logVerdict sinkOk v ctx)
  | none =>
  match checkMaliciousInput ts ctx with
  | some v => (v, logVerdict sinkOk v ctx)
  | none =>
  match checkPermission ts ctx with
  | some v => (v, logVerdict sinkOk v ctx)
  | none =>
  match checkDomainAccess st ts ctx with
  | some v => (v, logVerdict sinkOk v ctx)
  | none =>
  match checkSeatLimit st ts ctx with
  | some v => (v, logVerdict sinkOk v ctx)
  | none =>
  match checkSessionIntegrity st now ts ctx with
  | some v => (v, logVerdict sinkOk v ctx)
  | none =>
    let allowVerdict := mkVerdict .ALLOW .OK "All guard checks passed" .low
      .logged ts ctx.userEmail domain ctx.userRole
    (allowVerdict, logVerdict sinkOk allowVerdict ctx)

/-! ## HTTP adapter response bodies -/

/-- The 403 body built by `guardMiddleware` for a BLOCK verdict. -/
structure MiddlewareBlockBody where
  error : String
  reason : ReasonCode
  detail : String
  risk_level : RiskLevel
deriving DecidableEq, Repr

/-- `guardMiddleware`'s BLOCK response. -/
def middlewareBlockBody (v : GuardVerdict) : MiddlewareBlockBody :=
  { error := "Prompt blocked by security policy", reason := v.reason,
    detail := v.detail, risk_level := v.risk_level }

/-- The 403 body built by the guard router `POST /evaluate` for a BLOCK
verdict: a generic message, no detail field. -/
structure RouterBlockBody where
  verdict : Verdict
  reason : ReasonCode
  message : String
  risk_level : RiskLevel
  timestamp : Nat
deriving DecidableEq, Repr

/-- The guard router's BLOCK response. -/
def routerBlockBody (v : GuardVerdict) : RouterBlockBody :=
  { verdict := v.verdict, reason := v.reason,
    message := "Access denied. Contact your administrator.",
    risk_level := v.risk_level, timestamp := v.timestamp }

/-! ## Generic helper lemmas about the checks -/

/-- The `{email, domain, role}` snapshot every verdict carries. -/
def userSnap (ctx : GuardContext) : VerdictUser :=
  { email := ctx.userEmail, domain := extractDomain ctx.userEmail,
    role := roleStr ctx.userRole }

/-- Overwrite a verdict's timestamp. -/
def setTs (ts : Nat) (v : GuardVerdict) : GuardVerdict :=
  { v with timestamp := ts }

/-- Blank out the echoed caller email of a verdict. -/
def stripEmail (v : GuardVerdict) : GuardVerdict :=
  { v with user := { v.user with email := "" } }

theorem checkOverrideAttempt_some_shape (ts : Nat) (ctx : GuardContext)
    (v : GuardVerdict) (h : checkOverrideAttempt ts ctx = some v) :
    v.verdict = .BLOCK ∧ v.reason = .OVERRIDE_ATTEMPT ∧
    v.risk_level = .critical ∧ v.action_taken = .session_terminated ∧
    v.timestamp = ts ∧ v.user = userSnap ctx := by
  unfold checkOverrideAttempt at h
  split at h
  · simp only [Option.some.injEq] at h
    subst h
    simp [mkVerdict, userSnap]
  · exact absurd h (by simp)

/-- Claim C1: if some override signature occurs in a string collected from
`textInputs`, the JSON serialization of `payload`, or a `key=value` pair of
`headers`, then `evaluate` returns exactly the override check's verdict —
`BLOCK / OVERRIDE_ATTEMPT / critical / session_terminated` — for every
directory-store snapshot and clock, so no later check can influence the
outcome. -/
theorem c1_override_always_wins (st : Store) (now : Int) (ts : Nat)
    (ctx : GuardContext) (v : GuardVerdict)
    (h : checkOverrideAttempt ts ctx = some v) :
    evaluate st now ts ctx = v ∧ v.verdict = .BLOCK ∧
    v.reason = .OVERRIDE_ATTEMPT ∧ v.risk_level = .critical ∧
    v.action_taken = .session_terminated := by
  obtain ⟨h1, h2, h3, h4, _, _⟩ := checkOverrideAttempt_some_shape ts ctx v h
  refine ⟨?_, h1, h2, h3, h4⟩
  unfold evaluate
  rw [h]

/-- An empty directory store. -/
def storeEmpty : Store := { orgs := [], sessions := [] }

/-- A context that trips both the override check (`__admin__` in a text
input) and the role check (a member attempting `promote_to_org_admin`). -/
def ctxC1 : GuardContext :=
  { userEmail := "eve@corp.com", userRole := .member,
    action := some .promote_to_org_admin,
    textInputs := some ["please run __admin__ now"] }

theorem c1_override_always_wins_witness :
    evaluate storeEmpty 0 7 ctxC1 =
      mkVerdict .BLOCK .OVERRIDE_ATTEMPT
        "Override attempt detected: ADMIN_KEY in input"
        .critical .session_terminated 7 "eve@corp.com" "corp.com" .member ∧
    (checkPermission 7 ctxC1).isSome = true :=
  ⟨(c1_override_always_wins storeEmpty 0 7 ctxC1 _ (by decide)).1, by decide⟩

theorem evaluateLogged_eq (st : Store) (sinkOk : Bool) (now : Int) (ts : Nat)
    (ctx : GuardContext) :
    evaluateLogged st sinkOk now ts ctx =
      (evaluate st now ts ctx,
        logVerdict sinkOk (evaluate st now ts ctx) ctx) := by
  unfold evaluateLogged evaluate
  cases checkOverrideAttempt ts ctx <;>
    cases checkMaliciousInput ts ctx <;>
      cases checkPermission ts ctx <;>
        cases checkDomainAccess st ts ctx <;>
          cases checkSeatLimit st ts ctx <;>
            cases checkSessionIntegrity st now ts ctx <;> rfl

/-- Claim C6: the returned verdict is a function of the store snapshot,
clock and context alone — the log sink's health (`sinkOk`) never changes
it; the verdict that is returned (ALLOW included) is exactly the one
submitted to the log, and a failed write only yields a caught console
error carrying the same entry. -/
theorem c6_verdict_independent_of_log_sink (st : Store) (sinkOk : Bool)
    (now : Int) (ts : Nat) (ctx : GuardContext) :
    (evaluateLogged st sinkOk now ts ctx).1 = evaluate st now ts ctx ∧
    (evaluateLogged st sinkOk now ts ctx).2 =
      logVerdict sinkOk (evaluate st now ts ctx) ctx ∧
    (evaluateLogged st true now ts ctx).2 =
      .written (mkLogEntry (evaluate st now ts ctx) ctx) ∧
    (evaluateLogged st false now ts ctx).2 =
      .consoleError "[FYI Guard] Failed to log verdict:"
        (mkLogEntry (evaluate st now ts ctx) ctx) := by
  refine ⟨?_, ?_, ?_, ?_⟩ <;> rw [evaluateLogged_eq] <;> rfl

theorem checkOverrideAttempt_ts (ts ts' : Nat) (ctx : GuardContext) :
    checkOverrideAttempt ts ctx =
      (checkOverrideAttempt ts' ctx).map (setTs ts) := by
  unfold checkOverrideAttempt
  split <;> rfl

theorem checkMaliciousInput_ts (ts ts' : Nat) (ctx : GuardContext) :
    checkMaliciousInput ts ctx =
      (checkMaliciousInput ts' ctx).map (setTs ts) := by
  unfold checkMaliciousInput
  split <;> rfl

theorem checkPermission_ts (ts ts' : Nat) (ctx : GuardContext) :
    checkPermission ts ctx = (checkPermission ts' ctx).map (setTs ts) := by
  unfold checkPermission
  split
  · rfl
  · dsimp only
    split <;> rfl

theorem checkDomainAccess_ts (st : Store) (ts ts' : Nat)
    (ctx : GuardContext) :
    checkDomainAccess st ts ctx =
      (checkDomainAccess st ts' ctx).map (setTs ts) := by
  unfold checkDomainAccess
  split
  · rfl
  · dsimp only
    split
    · rfl
    · split
      · split
        · split <;> rfl
        · rfl
      · split <;> rfl

theorem checkSeatLimit_ts (st : Store) (ts ts' : Nat) (ctx : GuardContext) :
    checkSeatLimit st ts ctx = (checkSeatLimit st ts' ctx).map (setTs ts) := by
  unfold checkSeatLimit
  split
  · rfl
  · dsimp only
    split
    · rfl
    · split
      · rfl
      · split <;> rfl

theorem ipClassStep_ts (ts ts' : Nat) (ctx : GuardContext)
    (session : Session) :
    ipClassStep ts ctx session = (ipClassStep ts' ctx session).map (setTs ts) := by
  unfold ipClassStep
  dsimp only
  split
  · split <;> rfl
  · rfl

theorem multiLoginStep_ts (st : Store) (now : Int) (ts ts' : Nat)
    (ctx : GuardContext) :
    multiLoginStep st now ts ctx = (multiLoginStep st now ts' ctx).map (setTs ts) := by
  unfold multiLoginStep
  dsimp only
  split <;> rfl

theorem checkSessionIntegrity_ts (st : Store) (now : Int) (ts ts' : Nat)
    (ctx : GuardContext) :
    checkSessionIntegrity st now ts ctx =
      (checkSessionIntegrity st now ts' ctx).map (setTs ts) := by
  unfold checkSessionIntegrity
  split
  · rfl
  · dsimp only
    split
    · rfl
    · split
      · rfl
      · split
        · rfl
        · rw [ipClassStep_ts ts ts', multiLoginStep_ts st now ts ts']
          cases ipClassStep ts' ctx _ <;>
            cases multiLoginStep st now ts' ctx <;> rfl

theorem checkMaliciousInput_user (ts : Nat) (ctx : GuardContext)
    (v : GuardVerdict) (h : checkMaliciousInput ts ctx = some v) :
    v.user = userSnap ctx := by
  unfold checkMaliciousInput at h
  split at h
  · simp only [Option.some.injEq] at h
    subst h; rfl
  · exact absurd h (by simp)

theorem checkPermission_user (ts : Nat) (ctx : GuardContext)
    (v : GuardVerdict) (h : checkPermission ts ctx = some v) :
    v.user = userSnap ctx := by
  unfold checkPermission at h
  split at h
  · exact absurd h (by simp)
  · dsimp only at h
    split at h
    · exact absurd h (by simp)
    · simp only [Option.some.injEq] at h
      subst h; rfl

theorem checkDomainAccess_user (st : Store) (ts : Nat) (ctx : GuardContext)
    (v : GuardVerdict) (h : checkDomainAccess st ts ctx = some v) :
    v.user = userSnap ctx := by
  unfold checkDomainAccess at h
  split at h
  · exact absurd h (by simp)
  · dsimp only at h
    split at h
    · exact absurd h (by simp)
    · split at h
      · split at h
        · split at h <;>
            (simp only [Option.some.injEq] at h; subst h; rfl)
        · exact absurd h (by simp)
      · split at h
        · simp only [Option.some.injEq] at h
          subst h; rfl
        · exact absurd h (by simp)

theorem checkSeatLimit_user (st : Store) (ts : Nat) (ctx : GuardContext)
    (v : GuardVerdict) (h : checkSeatLimit st ts ctx = some v) :
    v.user = userSnap ctx := by
  unfold checkSeatLimit at h
  split at h
  · exact absurd h (by simp)
  · dsimp only at h
    split at h
    · exact absurd h (by simp)
    · split at h
      · exact absurd h (by simp)
      · split at h
        · simp only [Option.some.injEq] at h
          subst h; rfl
        · exact absurd h (by simp)

theorem ipClassStep_user (ts : Nat) (ctx : GuardContext) (session : Session)
    (v : GuardVerdict) (h : ipClassStep ts ctx session = some v) :
    v.user = userSnap ctx := by
  unfold ipClassStep at h
  dsimp only at h
  split at h
  · split at h
    · simp only [Option.some.injEq] at h
      subst h; rfl
    · exact absurd h (by simp)
  · exact absurd h (by simp)

theorem multiLoginStep_user (st : Store) (now : Int) (ts : Nat)
    (ctx : GuardContext) (v : GuardVerdict)
    (h : multiLoginStep st now ts ctx = some v) :
    v.user = userSnap ctx := by
  unfold multiLoginStep at h
  dsimp only at h
  split at h
  · simp only [Option.some.injEq] at h
    subst h; rfl
  · exact absurd h (by simp)

theorem checkSessionIntegrity_user (st : Store) (now : Int) (ts : Nat)
    (ctx : GuardContext) (v : GuardVerdict)
    (h : checkSessionIntegrity st now ts ctx = some v) :
    v.user = userSnap ctx := by
  unfold checkSessionIntegrity at h
  split at h
  · exact absurd h (by simp)
  · dsimp only at h
    split at h
    · simp only [Option.some.injEq] at h
      subst h; rfl
    · split at h
      · simp only [Option.some.injEq] at h
        subst h; rfl
      · split at h
        · simp only [Option.some.injEq] at h
          subst h; rfl
        · split at h
          · rename_i v' hstep
            simp only [Option.some.injEq] at h
            subst h
            exact ipClassStep_user ts ctx _ v' hstep
          · exact multiLoginStep_user st now ts ctx v h

theorem evaluate_user (st : Store) (now : Int) (ts : Nat)
    (ctx : GuardContext) : (evaluate st now ts ctx).user = userSnap ctx := by
  unfold evaluate
  cases h1 : checkOverrideAttempt ts ctx with
  | some v => exact (checkOverrideAttempt_some_shape ts ctx v h1).2.2.2.2.2
  | none =>
  cases h2 : checkMaliciousInput ts ctx with
  | some v => exact checkMaliciousInput_user ts ctx v h2
  | none =>
  cases h3 : checkPermission ts ctx with
  | some v => exact checkPermission_user ts ctx v h3
  | none =>
  cases h4 : checkDomainAccess st ts ctx with
  | some v => exact checkDomainAccess_user st ts ctx v h4
  | none =>
  cases h5 : checkSeatLimit st ts ctx with
  | some v => exact checkSeatLimit_user st ts ctx v h5
  | none =>
  cases h6 : checkSessionIntegrity st now ts ctx with
  | some v => exact checkSessionIntegrity_user st now ts ctx v h6
  | none => rfl

/-- Claim C7: one evaluation is a deterministic pure pass — for a fixed
store snapshot and `Date.now()` reading, re-running `evaluate` can differ
only in the verdict-construction timestamp, i.e. overwriting that one
field makes the two verdicts equal in every field. -/
theorem c7_idempotent_modulo_timestamp (st : Store) (now : Int)
    (ts₁ ts₂ : Nat) (ctx : GuardContext) :
    evaluate st now ts₁ ctx = setTs ts₁ (evaluate st now ts₂ ctx) := by
  unfold evaluate
  rw [checkOverrideAttempt_ts ts₁ ts₂, checkMaliciousInput_ts ts₁ ts₂,
    checkPermission_ts ts₁ ts₂, checkDomainAccess_ts st ts₁ ts₂,
    checkSeatLimit_ts st ts₁ ts₂, checkSessionIntegrity_ts st now ts₁ ts₂]
  cases checkOverrideAttempt ts₂ ctx <;>
    cases checkMaliciousInput ts₂ ctx <;>
      cases checkPermission ts₂ ctx <;>
        cases checkDomainAccess st ts₂ ctx <;>
          cases checkSeatLimit st ts₂ ctx <;>
            cases checkSessionIntegrity st now ts₂ ctx <;> rfl

theorem splitAtSign_no_at (cs : List Char) (h : '@' ∉ cs) :
    splitAtSign cs = [cs] := by
  induction cs with
  | nil => rfl
  | cons c rest ih =>
    simp only [List.mem_cons, not_or] at h
    unfold splitAtSign
    rw [if_neg (fun hc => h.1 hc.symm), ih h.2]

theorem extractDomain_no_at (email : String) (h : '@' ∉ email.data) :
    extractDomain email = "" := by
  unfold extractDomain
  rw [splitAtSign_no_at email.data h]

/-- Claim C8: `evaluate` is total on emails without an `@` (such as the
middleware's fallback identity `anonymous`): domain extraction yields the
empty string instead of failing, and the verdict that comes back carries
the caller's email, role, and an empty `user.domain`. -/
theorem c8_total_on_email_without_at (st : Store) (now : Int) (ts : Nat)
    (ctx : GuardContext) (h : '@' ∉ ctx.userEmail.data) :
    extractDomain ctx.userEmail = "" ∧
    (evaluate st now ts ctx).user =
      { email := ctx.userEmail, domain := "", role := roleStr ctx.userRole } := by
  have hd := extractDomain_no_at ctx.userEmail h
  refine ⟨hd, ?_⟩
  rw [evaluate_user]
  unfold userSnap
  rw [hd]

/-- The context `guardMiddleware` builds for an unresolvable user. -/
def ctxC8 : GuardContext :=
  { userEmail := "anonymous", userRole := .member,
    textInputs := some ["hello world"] }

theorem c8_total_on_email_without_at_witness :
    extractDomain ctxC8.userEmail = "" ∧
    (evaluate storeEmpty 0 3 ctxC8).user =
      { email := ctxC8.userEmail, domain := "",
        role := roleStr ctxC8.userRole } :=
  c8_total_on_email_without_at storeEmpty 0 3 ctxC8 (by decide)

/-- The context `guardMiddleware` builds for a guarded prompt `__admin__`
from an unresolvable user. -/
def ctxC4 : GuardContext :=
  { userEmail := "anonymous", userRole := .member,
    textInputs := some ["__admin__"] }

/-- Claim C4 is the spec's intent but the middleware violates it: on a
BLOCK verdict, `guardMiddleware`'s 403 body carries the verdict's full
`detail` string verbatim (here the matched-rule diagnostic for a blocked
prompt), while the guard router's own `/evaluate` endpoint sends only the
generic denial message. -/
theorem c4_middleware_block_reveals_detail :
    (evaluate storeEmpty 0 0 ctxC4).verdict = .BLOCK ∧
    (middlewareBlockBody (evaluate storeEmpty 0 0 ctxC4)).detail =
      (evaluate storeEmpty 0 0 ctxC4).detail ∧
    (evaluate storeEmpty 0 0 ctxC4).detail =
      "Override attempt detected: ADMIN_KEY in input" ∧
    (routerBlockBody (evaluate storeEmpty 0 0 ctxC4)).message =
      "Access denied. Contact your administrator." := by decide

/-- An org whose only registered domain has an admin-granted
`free_forever` override, with a member count over every finite cap. -/
def orgC2 : Organization :=
  { plan := some "free_trial", restrictSameDomain := false,
    domains := [{ domain := "acme.com", plan := "free_forever" }],
    memberCount := 1000000 }

/-- Store holding `orgC2`. -/
def storeC2 : Store := { orgs := [("org-2", orgC2)], sessions := [] }

/-- A caller on the free-forever domain whose text input also carries an
override signature. -/
def ctxC2 : GuardContext :=
  { userEmail := "mallory@acme.com", userRole := .member,
    orgId := some "org-2", textInputs := some ["bypass = true"] }

theorem c2_earlier_check_preempts_free_forever :
    orgC2.domains = [{ domain := "acme.com", plan := "free_forever" }] ∧
    extractDomain ctxC2.userEmail = "acme.com" ∧
    ctxC2.orgId = some "org-2" ∧
    storeC2.findOrg "org-2" = some orgC2 ∧
    orgC2.memberCount = 1000000 ∧
    (evaluate storeC2 0 0 ctxC2).reason = .OVERRIDE_ATTEMPT ∧
    (evaluate storeC2 0 0 ctxC2).verdict = .BLOCK := by decide

/-- Claim C2, amended: when the override, content and role checks abstain
and the caller's domain resolves (via the evaluated org) to a registered
domain record with plan `free_forever`, `evaluate` yields
`ALLOW / FREE_FOREVER_CONFIRMED` with no constraint on the member count,
and `checkSeatLimit` abstains for that domain. -/
theorem c2_free_forever_precedence (st : Store) (now : Int) (ts : Nat)
    (ctx : GuardContext) (oid : String) (org : Organization) (dr : OrgDomain)
    (hoid : ctx.orgId = some oid) (horg : st.findOrg oid = some org)
    (hfind : org.domains.find?
      (fun d => lowerStr d.domain == extractDomain ctx.userEmail) = some dr)
    (hplan : dr.plan = "free_forever")
    (h1 : checkOverrideAttempt ts ctx = none)
    (h2 : checkMaliciousInput ts ctx = none)
    (h3 : checkPermission ts ctx = none) :
    (evaluate st now ts ctx).verdict = .ALLOW ∧
    (evaluate st now ts ctx).reason = .FREE_FOREVER_CONFIRMED ∧
    checkSeatLimit st ts ctx = none := by
  have hda : checkDomainAccess st ts ctx =
      some (mkVerdict .ALLOW .FREE_FOREVER_CONFIRMED
        ("Domain \"" ++ extractDomain ctx.userEmail ++
          "\" has admin-granted free_forever access")
        .low .logged ts ctx.userEmail (extractDomain ctx.userEmail)
        ctx.userRole) := by
    simp [checkDomainAccess, hoid, horg, hfind, hplan]
  have heval : evaluate st now ts ctx =
      mkVerdict .ALLOW .FREE_FOREVER_CONFIRMED
        ("Domain \"" ++ extractDomain ctx.userEmail ++
          "\" has admin-granted free_forever access")
        .low .logged ts ctx.userEmail (extractDomain ctx.userEmail)
        ctx.userRole := by
    unfold evaluate
    rw [h1, h2, h3, hda]
  refine ⟨by rw [heval]; rfl, by rw [heval]; rfl, ?_⟩
  simp [checkSeatLimit, hoid, horg, hfind, hplan]

/-- An org granting `free_forever` to its (case-variant) domain. -/
def orgFF : Organization :=
  { plan := some "free_trial", restrictSameDomain := true,
    domains := [{ domain := "Wonder.org", plan := "free_forever" }],
    memberCount := 99999 }

/-- Store holding `orgFF`. -/
def storeFF : Store := { orgs := [("org-ff", orgFF)], sessions := [] }

/-- A clean caller on the free-forever domain. -/
def ctxFF : GuardContext :=
  { userEmail := "alice@wonder.ORG", userRole := .member,
    orgId := some "org-ff" }

theorem c2_free_forever_precedence_witness :
    (evaluate storeFF 5 11 ctxFF).verdict = .ALLOW ∧
    (evaluate storeFF 5 11 ctxFF).reason = .FREE_FOREVER_CONFIRMED ∧
    checkSeatLimit storeFF 11 ctxFF = none :=
  c2_free_forever_precedence storeFF 5 11 ctxFF "org-ff" orgFF
    { domain := "Wonder.org", plan := "free_forever" }
    rfl (by decide) (by decide) rfl (by decide) (by decide) (by decide)

/-- An org with zero registered domains and `restrictSameDomain = false`. -/
def orgC3 : Organization :=
  { plan := some "pro", restrictSameDomain := false, domains := [],
    memberCount := 3 }

/-- Store holding `orgC3`. -/
def storeC3 : Store := { orgs := [("org-3", orgC3)], sessions := [] }

/-- A caller from an unregistered domain against the zero-domain org. -/
def ctxC3 : GuardContext :=
  { userEmail := "guest@external.com", userRole := .member,
    orgId := some "org-3" }

theorem c3_zero_domains_no_escalate :
    orgC3.domains = [] ∧ orgC3.restrictSameDomain = false ∧
    ctxC3.orgId = some "org-3" ∧ storeC3.findOrg "org-3" = some orgC3 ∧
    (evaluate storeC3 0 0 ctxC3).verdict = .ALLOW ∧
    (evaluate storeC3 0 0 ctxC3).reason = .OK := by decide

/-- Claim C3, amended: `ESCALATE / DOMAIN_UNKNOWN` (flagged for review)
is returned when the resolved org has at least one registered domain, none
of them matches the caller's email domain, `restrictSameDomain` is false,
and the earlier override/content/role checks abstain; with zero registered
domains the Domain Access check abstains instead. -/
theorem c3_domain_unknown_escalates (st : Store) (now : Int) (ts : Nat)
    (ctx : GuardContext) (oid : String) (org : Organization)
    (hoid : ctx.orgId = some oid) (horg : st.findOrg oid = some org)
    (hne : 0 < org.domains.length)
    (hmiss : org.domains.find?
      (fun d => lowerStr d.domain == extractDomain ctx.userEmail) = none)
    (hrsd : org.restrictSameDomain = false)
    (h1 : checkOverrideAttempt ts ctx = none)
    (h2 : checkMaliciousInput ts ctx = none)
    (h3 : checkPermission ts ctx = none) :
    (evaluate st now ts ctx).verdict = .ESCALATE ∧
    (evaluate st now ts ctx).reason = .DOMAIN_UNKNOWN ∧
    (evaluate st now ts ctx).action_taken = .flagged_for_review := by
  have hda : checkDomainAccess st ts ctx =
      some (mkVerdict .ESCALATE .DOMAIN_UNKNOWN
        ("Domain \"" ++ extractDomain ctx.userEmail ++
          "\" is not registered in the system")
        .medium .flagged_for_review ts ctx.userEmail
        (extractDomain ctx.userEmail) ctx.userRole) := by
    simp [checkDomainAccess, hoid, horg, hmiss, hne, hrsd]
  have heval : evaluate st now ts ctx =
      mkVerdict .ESCALATE .DOMAIN_UNKNOWN
        ("Domain \"" ++ extractDomain ctx.userEmail ++
          "\" is not registered in the system")
        .medium .flagged_for_review ts ctx.userEmail
        (extractDomain ctx.userEmail) ctx.userRole := by
    unfold evaluate
    rw [h1, h2, h3, hda]
  exact ⟨by rw [heval]; rfl, by rw [heval]; rfl, by rw [heval]; rfl⟩

/-- An org with one registered domain that will not match the caller. -/
def orgC3w : Organization :=
  { plan := some "pro", restrictSameDomain := false,
    domains := [{ domain := "corp.com", plan := "pro" }], memberCount := 3 }

/-- Store holding `orgC3w`. -/
def storeC3w : Store := { orgs := [("org-3w", orgC3w)], sessions := [] }

/-- A caller from a domain the org has not registered. -/
def ctxC3w : GuardContext :=
  { userEmail := "stranger@other.net", userRole := .member,
    orgId := some "org-3w" }

theorem c3_domain_unknown_escalates_witness :
    (evaluate storeC3w 0 2 ctxC3w).verdict = .ESCALATE ∧
    (evaluate storeC3w 0 2 ctxC3w).reason = .DOMAIN_UNKNOWN ∧
    (evaluate storeC3w 0 2 ctxC3w).action_taken = .flagged_for_review :=
  c3_domain_unknown_escalates storeC3w 0 2 ctxC3w "org-3w" orgC3w
    rfl (by decide) (by decide) (by decide) rfl (by decide) (by decide)
    (by decide)

/-- Modelled from the claim text for comparison with the source table:
`free_trial`: 5, `pro`: 25, `enterprise`: unlimited, `free_forever`:
unlimited, default 5 for an unrecognized (or absent) plan.  `none` means
"no finite cap". -/
def specSeatCap (plan : Option String) : Option Nat :=
  match plan with
  | some s =>
    if s == "free_trial" then some 5
    else if s == "pro" then some 25
    else if s == "enterprise" then none
    else if s == "free_forever" then none
    else some 5
  | none => some 5

/-- Forget the distinction between a missing key and `Infinity`. -/
def capToOption : SeatCap → Option Nat
  | .finite n => some n
  | .infinite => none

theorem planSeatLimit_matches_spec (p : Option String) :
    capToOption ((PLAN_SEAT_LIMITS (p.getD "free_trial")).getD (.finite 5)) =
      specSeatCap p := by
  cases p with
  | none => rfl
  | some s =>
    simp only [specSeatCap, PLAN_SEAT_LIMITS, Option.getD_some]
    split_ifs <;> rfl

/-- Claim C5: for a context whose org resolves and whose email domain does
not carry a `free_forever` override, `checkSeatLimit` enforces the caps
`free_trial`: 5, `pro`: 25, `enterprise`: unlimited, `free_forever`:
unlimited (default 5 for an unrecognized plan), blocking with
`SEAT_LIMIT_REACHED` at risk `low` exactly when the member count is at or
over the finite cap, and abstaining below the cap or when no finite cap
applies. -/
theorem c5_seat_limit_matches_caps (st : Store) (ts : Nat)
    (ctx : GuardContext) (oid : String) (org : Organization)
    (hoid : ctx.orgId = some oid) (horg : st.findOrg oid = some org)
    (hff : (org.domains.find?
        (fun d => lowerStr d.domain == extractDomain ctx.userEmail)).map
          OrgDomain.plan ≠ some "free_forever") :
    (∀ c, specSeatCap org.plan = some c → c ≤ org.memberCount →
      ∃ v, checkSeatLimit st ts ctx = some v ∧ v.verdict = .BLOCK ∧
        v.reason = .SEAT_LIMIT_REACHED ∧ v.risk_level = .low ∧
        v.action_taken = .blocked) ∧
    (∀ c, specSeatCap org.plan = some c → org.memberCount < c →
      checkSeatLimit st ts ctx = none) ∧
    (specSeatCap org.plan = none → checkSeatLimit st ts ctx = none) := by
  have hffb : ((org.domains.find?
      (fun d => lowerStr d.domain == extractDomain ctx.userEmail)).map
        OrgDomain.plan == some "free_forever") = false := by
    simpa using hff
  have hseat : checkSeatLimit st ts ctx =
      (if capReached org.memberCount
          ((PLAN_SEAT_LIMITS (org.plan.getD "free_trial")).getD (.finite 5)) then
        some (mkVerdict .BLOCK .SEAT_LIMIT_REACHED
          ("Org has " ++ toString org.memberCount ++ "/" ++
            seatCapStr ((PLAN_SEAT_LIMITS (org.plan.getD "free_trial")).getD
              (.finite 5)) ++
            " seats (plan: " ++ org.plan.getD "free_trial" ++
            "). No seats available.")
          .low .blocked ts ctx.userEmail (extractDomain ctx.userEmail)
          ctx.userRole)
      else none) := by
    unfold checkSeatLimit
    rw [hoid]
    dsimp only
    rw [horg]
    dsimp only
    rw [hffb]
    rfl
  have hcap := planSeatLimit_matches_spec org.plan
  cases hsc : (PLAN_SEAT_LIMITS (org.plan.getD "free_trial")).getD (.finite 5) with
  | finite n =>
    rw [hsc] at hseat hcap
    refine ⟨?_, ?_, ?_⟩
    · intro c hc hle
      rw [← hcap] at hc
      simp only [capToOption, Option.some.injEq] at hc
      subst hc
      have hcond : capReached org.memberCount (SeatCap.finite n) = true := by
        simp only [capReached]
        exact decide_eq_true hle
      rw [hseat, if_pos hcond]
      exact ⟨_, rfl, rfl, rfl, rfl, rfl⟩
    · intro c hc hlt
      rw [← hcap] at hc
      simp only [capToOption, Option.some.injEq] at hc
      subst hc
      rw [hseat, if_neg]
      simp only [capReached, decide_eq_true_eq]
      omega
    · intro hc
      rw [← hcap] at hc
      simp [capToOption] at hc
  | infinite =>
    rw [hsc] at hseat hcap
    refine ⟨?_, ?_, ?_⟩
    · intro c hc _
      rw [← hcap] at hc
      simp [capToOption] at hc
    · intro c hc _
      rw [← hcap] at hc
      simp [capToOption] at hc
    · intro _
      rw [hseat]
      rfl

/-- A `free_trial` org exactly at its 5-seat cap. -/
def orgC5 : Organization :=
  { plan := some "free_trial", restrictSameDomain := false,
    domains := [{ domain := "corp.com", plan := "free_trial" }],
    memberCount := 5 }

/-- Store holding `orgC5`. -/
def storeC5 : Store := { orgs := [("org-5", orgC5)], sessions := [] }

/-- A caller on the capped org. -/
def ctxC5 : GuardContext :=
  { userEmail := "user@corp.com", userRole := .member,
    orgId := some "org-5" }

theorem c5_seat_limit_matches_caps_witness :
    ∃ v, checkSeatLimit storeC5 4 ctxC5 = some v ∧ v.verdict = .BLOCK ∧
      v.reason = .SEAT_LIMIT_REACHED ∧ v.risk_level = .low ∧
      v.action_taken = .blocked :=
  (c5_seat_limit_matches_caps storeC5 4 ctxC5 "org-5" orgC5 rfl (by decide)
    (by decide)).1 5 (by decide) (by decide)

theorem ipClassStep_some_shape (ts : Nat) (ctx : GuardContext)
    (session : Session) (v : GuardVerdict)
    (h : ipClassStep ts ctx session = some v) :
    v.verdict = .ESCALATE ∧ v.reason = .SESSION_INVALID := by
  unfold ipClassStep at h
  dsimp only at h
  split at h
  · split at h
    · simp only [Option.some.injEq] at h
      subst h
      exact ⟨rfl, rfl⟩
    · exact absurd h (by simp)
  · exact absurd h (by simp)

theorem multiLoginStep_some_shape (st : Store) (now : Int) (ts : Nat)
    (ctx : GuardContext) (v : GuardVerdict)
    (h : multiLoginStep st now ts ctx = some v) :
    v.verdict = .ESCALATE ∧ v.reason = .SUSPICIOUS_MULTI_LOGIN := by
  unfold multiLoginStep at h
  dsimp only at h
  split at h
  · simp only [Option.some.injEq] at h
    subst h
    exact ⟨rfl, rfl⟩
  · exact absurd h (by simp)

/-- A stored session with a null TTL, created at epoch millisecond 0. -/
def sessC10 : Session :=
  { userEmail := "bob@corp.com", ipAddress := some "10.0.0.1",
    createdAt := 0, ttlSeconds := none }

/-- Store holding `sessC10` under token `tok-10`. -/
def storeC10 : Store := { orgs := [], sessions := [("tok-10", sessC10)] }

/-- The session owner presenting the token, but with an override signature
in a text input. -/
def ctxC10 : GuardContext :=
  { userEmail := "bob@corp.com", userRole := .member,
    sessionToken := some "tok-10", textInputs := some ["grant_all"] }

theorem c10_override_preempts_session_expiry :
    ctxC10.sessionToken = some "tok-10" ∧
    storeC10.findSession "tok-10" = some sessC10 ∧
    sessC10.userEmail = ctxC10.userEmail ∧
    sessC10.ttlSeconds = none ∧
    ((3700000 : Int) - sessC10.createdAt >
      (sessC10.ttlSeconds.getD 3600) * 1000) ∧
    (evaluate storeC10 3700000 0 ctxC10).reason = .OVERRIDE_ATTEMPT := by
  decide

/-- Claim C10, amended: when the override, content, role, domain and seat
checks all abstain, a context presenting a resolvable token owned by the
claimed user receives `BLOCK / SESSION_EXPIRED` exactly when more than
`ttlSeconds` seconds — 3600 when the stored TTL is null — have elapsed
between the session `createdAt` and the `Date.now()` reading. -/
theorem c10_session_ttl_default_3600 (st : Store) (now : Int) (ts : Nat)
    (ctx : GuardContext) (tok : String) (session : Session)
    (h1 : checkOverrideAttempt ts ctx = none)
    (h2 : checkMaliciousInput ts ctx = none)
    (h3 : checkPermission ts ctx = none)
    (h4 : checkDomainAccess st ts ctx = none)
    (h5 : checkSeatLimit st ts ctx = none)
    (htok : ctx.sessionToken = some tok)
    (hfind : st.findSession tok = some session)
    (howner : session.userEmail = ctx.userEmail) :
    ((evaluate st now ts ctx).verdict = .BLOCK ∧
      (evaluate st now ts ctx).reason = .SESSION_EXPIRED) ↔
      now - session.createdAt > (session.ttlSeconds.getD 3600) * 1000 := by
  have heval : evaluate st now ts ctx =
      (match checkSessionIntegrity st now ts ctx with
       | some v => v
       | none => mkVerdict .ALLOW .OK "All guard checks passed" .low .logged
           ts ctx.userEmail (extractDomain ctx.userEmail) ctx.userRole) := by
    unfold evaluate
    rw [h1, h2, h3, h4, h5]
  rw [heval]
  unfold checkSessionIntegrity
  rw [htok]
  dsimp only
  rw [hfind]
  dsimp only
  rw [if_neg (show ¬((session.userEmail != ctx.userEmail) = true) by
    simp [howner])]
  by_cases hexp : now - session.createdAt >
      (session.ttlSeconds.getD 3600) * 1000
  · rw [if_pos hexp]
    simpa [mkVerdict] using hexp
  · rw [if_neg hexp]
    cases hip : ipClassStep ts ctx session with
    | some v =>
      obtain ⟨hv, hr⟩ := ipClassStep_some_shape ts ctx session v hip
      simp [hv, hr, hexp]
    | none =>
      cases hml : multiLoginStep st now ts ctx with
      | some v =>
        obtain ⟨hv, hr⟩ := multiLoginStep_some_shape st now ts ctx v hml
        simp [hv, hr, hexp]
      | none =>
        simp [mkVerdict, hexp]

/-- A stored session with a null TTL for the C10 witness. -/
def sessW10 : Session :=
  { userEmail := "dora@corp.com", ipAddress := none, createdAt := 0,
    ttlSeconds := none }

/-- Store holding `sessW10` under token `tok-w`. -/
def storeW10 : Store := { orgs := [], sessions := [("tok-w", sessW10)] }

/-- The session owner presenting the token with an otherwise clean
context. -/
def ctxW10 : GuardContext :=
  { userEmail := "dora@corp.com", userRole := .member,
    sessionToken := some "tok-w" }

theorem c10_session_ttl_default_3600_witness :
    (evaluate storeW10 3600001 9 ctxW10).verdict = .BLOCK ∧
    (evaluate storeW10 3600001 9 ctxW10).reason = .SESSION_EXPIRED :=
  (c10_session_ttl_default_3600 storeW10 3600001 9 ctxW10 "tok-w" sessW10
    (by decide) (by decide) (by decide) (by decide) (by decide) rfl
    (by decide) rfl).mpr (by decide)

theorem charToNat_ofNat_valid (n : Nat) (h : n.isValidChar) :
    (Char.ofNat n).toNat = n := by
  unfold Char.ofNat
  rw [dif_pos h]
  rfl

theorem toLower_eq_at_iff (c : Char) : Char.toLower c = '@' ↔ c = '@' := by
  constructor
  · intro h
    unfold Char.toLower at h
    dsimp only at h
    split at h
    · exfalso
      rename_i hc
      have hv : (c.toNat + 32).isValidChar := by
        left
        omega
      have h64 := congrArg Char.toNat h
      rw [charToNat_ofNat_valid _ hv] at h64
      rw [show Char.toNat '@' = 64 from rfl] at h64
      omega
    · exact h
  · intro h
    subst h
    decide

theorem splitAtSign_ne_nil (cs : List Char) : splitAtSign cs ≠ [] := by
  cases cs with
  | nil => simp [splitAtSign]
  | cons c rest =>
    unfold splitAtSign
    split
    · simp
    · split <;> simp

theorem splitAtSign_map_toLower (cs : List Char) :
    splitAtSign (cs.map Char.toLower) =
      (splitAtSign cs).map (List.map Char.toLower) := by
  induction cs with
  | nil => rfl
  | cons c rest ih =>
    simp only [List.map_cons]
    unfold splitAtSign
    by_cases hc : c = '@'
    · subst hc
      rw [if_pos (by decide), if_pos rfl]
      simp [ih]
    · rw [if_neg (fun h => hc ((toLower_eq_at_iff c).mp h)), if_neg hc, ih]
      cases hsr : splitAtSign rest with
      | nil => exact absurd hsr (splitAtSign_ne_nil rest)
      | cons h t => simp

theorem extractDomain_lower_congr (e₁ e₂ : String)
    (h : e₁.data.map Char.toLower = e₂.data.map Char.toLower) :
    extractDomain e₁ = extractDomain e₂ := by
  have h1 := splitAtSign_map_toLower e₁.data
  rw [h, splitAtSign_map_toLower e₂.data] at h1
  unfold extractDomain
  cases hs1 : splitAtSign e₁.data with
  | nil => exact absurd hs1 (splitAtSign_ne_nil _)
  | cons a1 t1 =>
    cases hs2 : splitAtSign e₂.data with
    | nil => exact absurd hs2 (splitAtSign_ne_nil _)
    | cons a2 t2 =>
      rw [hs1, hs2] at h1
      simp only [List.map_cons, List.cons.injEq] at h1
      cases t1 with
      | nil =>
        cases t2 with
        | nil => rfl
        | cons b2 t2' => simp at h1
      | cons b1 t1' =>
        cases t2 with
        | nil => simp at h1
        | cons b2 t2' =>
          simp only [List.map_cons, List.cons.injEq] at h1
          dsimp only
          rw [← h1.2.1]

theorem find?_domains_congr (dom : String) (l₁ l₂ : List OrgDomain)
    (h : List.Forall₂ (fun d₁ d₂ =>
      d₁.domain.data.map Char.toLower = d₂.domain.data.map Char.toLower ∧
      d₁.plan = d₂.plan) l₁ l₂) :
    (l₁.find? (fun d => lowerStr d.domain == dom)).map OrgDomain.plan =
      (l₂.find? (fun d => lowerStr d.domain == dom)).map OrgDomain.plan := by
  induction h with
  | nil => rfl
  | @cons d₁ d₂ l₁' l₂' hd tl ih =>
    have hp : (lowerStr d₂.domain == dom) = (lowerStr d₁.domain == dom) := by
      rw [show lowerStr d₁.domain = lowerStr d₂.domain from
        congrArg String.mk hd.1]
    simp only [List.find?]
    rw [hp]
    cases hc : (lowerStr d₁.domain == dom) with
    | false => exact ih
    | true => simp [hd.2]

/-- Claim C9: domain matching is case-insensitive in both
`checkDomainAccess` and `checkSeatLimit` — re-lettering the case of the
caller email (in particular of its domain part) and of the registered
org-domain strings changes neither check's outcome; only the email echoed
inside the verdict's `user` snapshot can differ, which `stripEmail`
discards. -/
theorem c9_domain_matching_case_insensitive
    (st₁ st₂ : Store) (ts : Nat) (ctx : GuardContext) (e₂ : String)
    (oid : String) (org₁ org₂ : Organization)
    (hoid : ctx.orgId = some oid)
    (horg₁ : st₁.findOrg oid = some org₁)
    (horg₂ : st₂.findOrg oid = some org₂)
    (hplan : org₁.plan = org₂.plan)
    (hrsd : org₁.restrictSameDomain = org₂.restrictSameDomain)
    (hmc : org₁.memberCount = org₂.memberCount)
    (hdoms : List.Forall₂ (fun d₁ d₂ =>
      d₁.domain.data.map Char.toLower = d₂.domain.data.map Char.toLower ∧
      d₁.plan = d₂.plan) org₁.domains org₂.domains)
    (hemail : ctx.userEmail.data.map Char.toLower = e₂.data.map Char.toLower) :
    (checkDomainAccess st₂ ts { ctx with userEmail := e₂ }).map stripEmail =
      (checkDomainAccess st₁ ts ctx).map stripEmail ∧
    (checkSeatLimit st₂ ts { ctx with userEmail := e₂ }).map stripEmail =
      (checkSeatLimit st₁ ts ctx).map stripEmail := by
  have hdom : extractDomain e₂ = extractDomain ctx.userEmail :=
    extractDomain_lower_congr e₂ ctx.userEmail hemail.symm
  have hlen : org₁.domains.length = org₂.domains.length := hdoms.length_eq
  have hfindp := find?_domains_congr (extractDomain ctx.userEmail)
    org₁.domains org₂.domains hdoms
  constructor
  · unfold checkDomainAccess
    dsimp only
    rw [hoid]
    dsimp only
    rw [horg₁, horg₂]
    dsimp only
    rw [hdom]
    cases hf1 : org₁.domains.find?
        (fun d => lowerStr d.domain == extractDomain ctx.userEmail) with
    | none =>
      have hf2 : org₂.domains.find?
          (fun d => lowerStr d.domain == extractDomain ctx.userEmail) = none := by
        rw [hf1] at hfindp
        exact Option.map_eq_none.mp hfindp.symm
      rw [hf2]
      dsimp only
      rw [hlen, hrsd]
      split
      · split <;> rfl
      · rfl
    | some d₁ =>
      rw [hf1] at hfindp
      cases hf2 : org₂.domains.find?
          (fun d => lowerStr d.domain == extractDomain ctx.userEmail) with
      | none =>
        rw [hf2] at hfindp
        simp at hfindp
      | some d₂ =>
        rw [hf2] at hfindp
        simp at hfindp
        try dsimp only
        rw [hfindp]
        split <;> rfl
  · unfold checkSeatLimit
    dsimp only
    rw [hoid]
    dsimp only
    rw [horg₁, horg₂]
    dsimp only
    rw [hdom, hfindp]
    split
    · rfl
    · try dsimp only
      rw [hplan, hmc]
      split <;> rfl

/-- An org registering its domain with mixed case. -/
def orgC9a : Organization :=
  { plan := some "pro", restrictSameDomain := true,
    domains := [{ domain := "Acme.COM", plan := "pro" }], memberCount := 10 }

/-- The same org with the domain string lower-cased. -/
def orgC9b : Organization :=
  { plan := some "pro", restrictSameDomain := true,
    domains := [{ domain := "acme.com", plan := "pro" }], memberCount := 10 }

/-- Store holding `orgC9a`. -/
def storeC9a : Store := { orgs := [("org-9", orgC9a)], sessions := [] }

/-- Store holding `orgC9b`. -/
def storeC9b : Store := { orgs := [("org-9", orgC9b)], sessions := [] }

/-- A caller with a mixed-case email on that domain. -/
def ctxC9 : GuardContext :=
  { userEmail := "User@ACME.com", userRole := .member,
    orgId := some "org-9" }

theorem c9_domain_matching_case_insensitive_witness :
    (checkDomainAccess storeC9b 6
        { ctxC9 with userEmail := "user@acme.COM" }).map stripEmail =
      (checkDomainAccess storeC9a 6 ctxC9).map stripEmail ∧
    (checkSeatLimit storeC9b 6
        { ctxC9 with userEmail := "user@acme.COM" }).map stripEmail =
      (checkSeatLimit storeC9a 6 ctxC9).map stripEmail :=
  c9_domain_matching_case_insensitive storeC9a storeC9b 6 ctxC9
    "user@acme.COM" "org-9" orgC9a orgC9b rfl (by decide) (by decide)
    rfl rfl rfl (List.Forall₂.cons ⟨by decide, rfl⟩ List.Forall₂.nil)
    (by decide)

end Guard
